import Mathlib

/-!
Shallow embedding of the SonarCloud → GitHub issue-sync reconciliation engine
(`sonarcloud_github_sync`): the data entities (`SonarIssue`, `GitHubIssue`),
the body-building / key-extraction linking protocol, and the three engine
passes (`sync_sonar_to_github`, `sync_github_to_sonar`, `full_sync`).

External collaborators (the SonarCloud and GitHub HTTP clients) are modelled
by a `Collab` record holding the lists their bulk queries return, the boolean
results of the two connection checks, and per-item failure oracles that say
which individual create / close / mark-wont-fix requests raise.  Every
request the engine issues is recorded as an `SyncAction` in an event trace, so
"the engine issues a call" is a statement about the trace.
-/

/-- One SonarCloud issue, as produced by `SonarClient.get_issues`
(`sonar_client.py`, class `SonarIssue`). -/
structure SonarIssue where
  key : String
  type : String
  severity : String
  status : String
  message : String
  component : String
  project : String
  tags : List String
deriving Repr, DecidableEq

/-- The canonical SonarCloud issue URL, `SonarIssue.url` in `sonar_client.py`:
an f-string over the project id and the issue key. -/
def SonarIssue.url (i : SonarIssue) : String :=
  "https://sonarcloud.io/project/issues?id=" ++ i.project ++ "&issues=" ++ i.key
    ++ "&open=" ++ i.key

/-- One GitHub issue, as produced by `GitHubClient.get_issues_with_label`
(`github_client.py`, class `GitHubIssue`).  `state_reason` is optional. -/
structure GitHubIssue where
  number : Nat
  title : String
  body : String
  state : String
  labels : List String
  state_reason : Option String
deriving Repr, DecidableEq

/-- The part of `Config` the engine reads (`config.py`): project key,
repository id and the issue-type filter. -/
structure Config where
  sonar_project_key : String
  github_repo : String
  issue_types : List String
deriving Repr, DecidableEq

/-- One request issued by the engine against a collaborator.  The first two
constructors are the bulk read queries, the last three the mutating calls. -/
inductive SyncAction where
  | fetchFindings (projectKey : String) (types : List String)
  | fetchLabeled (repo : String) (label : String)
  | createIssue (repo : String) (title : String) (body : String) (labels : List String)
  | closeIssue (repo : String) (number : Nat)
  | markWontFix (issueKey : String)
deriving Repr, DecidableEq

/-- The collaborators as the engine observes them during one pass: the lists
returned by the bulk queries, the connection-check results, and oracles
telling which individual mutating calls fail (raise) when issued. -/
structure Collab where
  sonarIssues : List SonarIssue
  ghIssues : List GitHubIssue
  sonarOk : Bool
  githubOk : Bool
  createFails : SonarIssue → Bool
  closeFails : Nat → Bool
  wontFixFails : String → Bool

/-- Engine-side state of one pass: the four result counters plus the trace of
issued requests. -/
structure SyncState where
  created : Nat
  skipped : Nat
  closed : Nat
  marked_wont_fix : Nat
  trace : List SyncAction
deriving Repr, DecidableEq

/-- The all-zero, empty-trace initial state. -/
def initState : SyncState := ⟨0, 0, 0, 0, []⟩

/-- Python's `sub in s` on strings: `sub` occurs contiguously inside `s`. -/
def strContains (s sub : String) : Bool := decide (sub.data <:+: s.data)

/-- Python's `"\n".join(parts)`. -/
def joinNl : List String → String
  | [] => ""
  | [part] => part
  | part :: rest => part ++ "\n" ++ joinNl rest

/-- Python's `list.insert(i, x)` for a non-negative index `i`. -/
def insertAt (l : List String) (i : Nat) (x : String) : List String :=
  l.take i ++ x :: l.drop i

/-- Membership in the regex character class `[A-Za-z0-9_:-]` used by
`_extract_sonar_issue_key`. -/
def isSonarKeyChar (c : Char) : Bool :=
  ('A' ≤ c && c ≤ 'Z') || ('a' ≤ c && c ≤ 'z') || ('0' ≤ c && c ≤ '9')
    || c = '_' || c = ':' || c = '-'

/-- The literal part of the marker regex `\*\*SonarCloud Issue:\*\* `. -/
def markerPattern : List Char := "**SonarCloud Issue:** ".data

/-- `re.search` for the pattern `\*\*SonarCloud Issue:\*\* ([A-Za-z0-9_:-]+)`:
scan start positions left to right; at the first position where the literal
prefix matches and is followed by at least one class character, return the
maximal (greedy) run of class characters. -/
def searchKey : List Char → Option String
  | [] => none
  | c :: cs =>
    if markerPattern.isPrefixOf (c :: cs) then
      let run := ((c :: cs).drop markerPattern.length).takeWhile isSonarKeyChar
      if run = [] then searchKey cs else some (String.mk run)
    else searchKey cs

/-- `SyncEngine._extract_sonar_issue_key` (`sync.py` lines 252–255):
`re.search(r'\*\*SonarCloud Issue:\*\* ([A-Za-z0-9_:-]+)', github_body)`,
returning the captured group of the first match, or `None`. -/
def SyncEngine.extract_sonar_issue_key (github_body : String) : Option String :=
  searchKey github_body.data

/-- `SyncEngine._create_github_issue_body` (`sync.py` lines 229–250): the
twelve fixed lines, then — only when `tags` is non-empty — two
`body_parts.insert(-3, …)` calls (i.e. insertion at index `len - 3`), first
the tags line, then an empty line; finally `"\n".join(body_parts)`. -/
def SyncEngine.create_github_issue_body (sonar_issue : SonarIssue) : String :=
  let body_parts : List String := [
    "**SonarCloud Issue:** " ++ sonar_issue.key,
    "**Type:** " ++ sonar_issue.type,
    "**Severity:** " ++ sonar_issue.severity,
    "**Component:** " ++ sonar_issue.component,
    "",
    "**Description:**",
    sonar_issue.message,
    "",
    "**SonarCloud Link:** " ++ sonar_issue.url,
    "",
    "---",
    "*This issue was automatically created from SonarCloud*"]
  let body_parts :=
    if sonar_issue.tags ≠ [] then
      let withTags := insertAt body_parts (body_parts.length - 3)
        ("**Tags:** " ++ String.intercalate ", " sonar_issue.tags)
      insertAt withTags (withTags.length - 3) ""
    else body_parts
  joinNl body_parts

/-- `GitHubClient.issue_exists_with_sonar_link` (`github_client.py` lines
138–144) applied to an already-fetched labeled list: the first issue whose
body contains the SonarCloud URL as a substring, else `None`. -/
def GitHubClient.issue_exists_with_sonar_link (ghIssues : List GitHubIssue)
    (sonar_issue_url : String) : Option GitHubIssue :=
  ghIssues.find? (fun issue => strContains issue.body sonar_issue_url)

/-- Loop body of the creation phase of `SyncEngine.sync_sonar_to_github`
(`sync.py` lines 61–103) for one SonarCloud issue: fetch the labeled list
(via `issue_exists_with_sonar_link`), skip when a linked issue exists,
otherwise create (dry run: count only; execution: issue the request, count
only when it does not raise). -/
def processFinding (c : Collab) (cfg : Config) (dry_run : Bool)
    (st : SyncState) (sonar_issue : SonarIssue) : SyncState :=
  let st := { st with
    trace := st.trace ++ [SyncAction.fetchLabeled cfg.github_repo "sonarcloud"] }
  match GitHubClient.issue_exists_with_sonar_link c.ghIssues sonar_issue.url with
  | some _ => { st with skipped := st.skipped + 1 }
  | none =>
    let github_title := sonar_issue.message
    let github_body := SyncEngine.create_github_issue_body sonar_issue
    let github_labels := "sonarcloud" :: sonar_issue.tags
    if dry_run then
      { st with created := st.created + 1 }
    else
      let st := { st with trace := st.trace ++
        [SyncAction.createIssue cfg.github_repo github_title github_body github_labels] }
      if c.createFails sonar_issue then st
      else { st with created := st.created + 1 }

/-- Loop body of the closure phase of `SyncEngine.sync_sonar_to_github`
(`sync.py` lines 111–134) for one GitHub issue: only open issues are
considered; extract the key (no key: log and skip); when no open SonarCloud
issue carries that key, close (dry run: count only; execution: issue the
request, count only when it does not raise). -/
def processGithubIssue (c : Collab) (cfg : Config) (dry_run : Bool)
    (st : SyncState) (github_issue : GitHubIssue) : SyncState :=
  if github_issue.state = "open" then
    match SyncEngine.extract_sonar_issue_key github_issue.body with
    | some sonar_issue_key =>
      if c.sonarIssues.any (fun si => si.key = sonar_issue_key) then st
      else if dry_run then { st with closed := st.closed + 1 }
      else
        let st := { st with trace := st.trace ++
          [SyncAction.closeIssue cfg.github_repo github_issue.number] }
        if c.closeFails github_issue.number then st
        else { st with closed := st.closed + 1 }
    | none => st
  else st

/-- `SyncEngine.sync_sonar_to_github` (`sync.py` lines 39–140): fetch the
SonarCloud issues, run the creation loop, fetch the labeled GitHub issues,
run the closure loop. -/
def SyncEngine.sync_sonar_to_github (c : Collab) (cfg : Config)
    (dry_run : Bool) : SyncState :=
  let st := { initState with
    trace := [SyncAction.fetchFindings cfg.sonar_project_key cfg.issue_types] }
  let st := c.sonarIssues.foldl (processFinding c cfg dry_run) st
  let st := { st with
    trace := st.trace ++ [SyncAction.fetchLabeled cfg.github_repo "sonarcloud"] }
  c.ghIssues.foldl (processGithubIssue c cfg dry_run) st

/-- Loop body of `SyncEngine.sync_github_to_sonar` (`sync.py` lines 152–177)
for one GitHub issue: only issues that are closed with `state_reason ==
"not_planned"` are considered; extract the key (no key: log and skip); then
mark won't-fix (dry run: count only; execution: issue the request, count only
when it does not raise). -/
def processReverse (c : Collab) (dry_run : Bool)
    (st : SyncState) (github_issue : GitHubIssue) : SyncState :=
  if github_issue.state = "closed" ∧ github_issue.state_reason = some "not_planned" then
    match SyncEngine.extract_sonar_issue_key github_issue.body with
    | some sonar_issue_key =>
      if dry_run then { st with marked_wont_fix := st.marked_wont_fix + 1 }
      else
        let st := { st with
          trace := st.trace ++ [SyncAction.markWontFix sonar_issue_key] }
        if c.wontFixFails sonar_issue_key then st
        else { st with marked_wont_fix := st.marked_wont_fix + 1 }
    | none => st
  else st

/-- `SyncEngine.sync_github_to_sonar` (`sync.py` lines 142–181): fetch the
labeled GitHub issues and run the reverse loop. -/
def SyncEngine.sync_github_to_sonar (c : Collab) (cfg : Config)
    (dry_run : Bool) : SyncState :=
  let st := { initState with
    trace := [SyncAction.fetchLabeled cfg.github_repo "sonarcloud"] }
  c.ghIssues.foldl (processReverse c dry_run) st

/-- `SyncEngine.validate_credentials` (`sync.py` lines 24–37): test the
SonarCloud connection first, then the GitHub connection; raise on the first
failure, else return `True`. -/
def SyncEngine.validate_credentials (c : Collab) : Except String Bool :=
  if !c.sonarOk then
    Except.error "Invalid SonarCloud credentials or connection failed"
  else if !c.githubOk then
    Except.error "Invalid GitHub credentials or repository access failed"
  else Except.ok true

/-- The dict returned by `sync_sonar_to_github` (`sync.py` lines 136–140). -/
def forwardResultDict (st : SyncState) : List (String × Nat) :=
  [("created", st.created), ("skipped", st.skipped), ("closed", st.closed)]

/-- The dict returned by `sync_github_to_sonar` (`sync.py` lines 179–181). -/
def reverseResultDict (st : SyncState) : List (String × Nat) :=
  [("marked_wont_fix", st.marked_wont_fix)]

/-- `SyncEngine.full_sync` (`sync.py` lines 183–227): validate credentials
(raising aborts the pass with an empty trace — nothing has been fetched or
mutated yet), then forward sync, then reverse sync, then merge the two result
dicts (`{**a, **b}`; the key sets are disjoint, so this is concatenation in
insertion order).  Returns the whole pass's trace together with either the
raised message or the merged result dict. -/
def SyncEngine.full_sync (c : Collab) (cfg : Config) (dry_run : Bool) :
    List SyncAction × Except String (List (String × Nat)) :=
  match SyncEngine.validate_credentials c with
  | Except.error e => ([], Except.error e)
  | Except.ok _ =>
    let fwd := SyncEngine.sync_sonar_to_github c cfg dry_run
    let rev := SyncEngine.sync_github_to_sonar c cfg dry_run
    (fwd.trace ++ rev.trace,
      Except.ok (forwardResultDict fwd ++ reverseResultDict rev))

/-! ## Helper lemmas on the string machinery -/

lemma str_data_append (s t : String) : (s ++ t).data = s.data ++ t.data := rfl

lemma string_mk_data (s : String) : String.mk s.data = s := rfl

lemma joinNl_data_cons (a b : String) (l : List String) :
    (joinNl (a :: b :: l)).data = a.data ++ '\n' :: (joinNl (b :: l)).data := by
  show (a ++ "\n" ++ joinNl (b :: l)).data = _
  rw [str_data_append, str_data_append, List.append_assoc]
  rfl

lemma takeWhile_all_stop (p : Char → Bool) (l : List Char) (x : Char)
    (t : List Char) (hall : ∀ c ∈ l, p c = true) (hx : p x = false) :
    (l ++ x :: t).takeWhile p = l := by
  induction l with
  | nil => simp [List.takeWhile_cons, hx]
  | cons a as ih =>
    have ha := hall a (by simp)
    simp only [List.cons_append, List.takeWhile_cons, ha, if_true]
    rw [ih (fun c hc => hall c (by simp [hc]))]

lemma searchKey_of_marker (s : List Char)
    (hpre : markerPattern.isPrefixOf s = true)
    (hrun : (s.drop markerPattern.length).takeWhile isSonarKeyChar ≠ []) :
    searchKey s =
      some (String.mk ((s.drop markerPattern.length).takeWhile isSonarKeyChar)) := by
  cases s with
  | nil => exact absurd hpre (by decide)
  | cons c cs =>
    rw [searchKey]
    simp only [hpre, if_true, hrun, if_neg, if_false, ite_false]

/-- The creation-phase body layout when tags are present: the tags line lands
immediately after the canonical-URL line (index 9 of the twelve fixed lines),
followed by an extra blank line, because `insert(-3, …)` inserts at index
`len - 3`. -/
lemma create_body_parts_of_tags (si : SonarIssue) (h : si.tags ≠ []) :
    SyncEngine.create_github_issue_body si = joinNl [
      "**SonarCloud Issue:** " ++ si.key,
      "**Type:** " ++ si.type,
      "**Severity:** " ++ si.severity,
      "**Component:** " ++ si.component,
      "",
      "**Description:**",
      si.message,
      "",
      "**SonarCloud Link:** " ++ si.url,
      "**Tags:** " ++ String.intercalate ", " si.tags,
      "",
      "",
      "---",
      "*This issue was automatically created from SonarCloud*"] := by
  simp only [SyncEngine.create_github_issue_body]
  rw [if_pos h]
  rfl

/-- The creation-phase body layout when tags are absent: exactly the twelve
fixed lines. -/
lemma create_body_parts_no_tags (si : SonarIssue) (h : si.tags = []) :
    SyncEngine.create_github_issue_body si = joinNl [
      "**SonarCloud Issue:** " ++ si.key,
      "**Type:** " ++ si.type,
      "**Severity:** " ++ si.severity,
      "**Component:** " ++ si.component,
      "",
      "**Description:**",
      si.message,
      "",
      "**SonarCloud Link:** " ++ si.url,
      "",
      "---",
      "*This issue was automatically created from SonarCloud*"] := by
  simp only [SyncEngine.create_github_issue_body]
  rw [if_neg (by simp [h])]

/-- Every built body starts with the marker literal, then the key, then a
newline. -/
lemma body_data_shape (si : SonarIssue) :
    ∃ t, (SyncEngine.create_github_issue_body si).data =
      markerPattern ++ (si.key.data ++ '\n' :: t) := by
  by_cases h : si.tags = []
  · refine ⟨(joinNl ["**Type:** " ++ si.type, "**Severity:** " ++ si.severity,
      "**Component:** " ++ si.component, "", "**Description:**", si.message, "",
      "**SonarCloud Link:** " ++ si.url, "", "---",
      "*This issue was automatically created from SonarCloud*"]).data, ?_⟩
    rw [create_body_parts_no_tags si h, joinNl_data_cons, str_data_append,
      List.append_assoc]
    rfl
  · refine ⟨(joinNl ["**Type:** " ++ si.type, "**Severity:** " ++ si.severity,
      "**Component:** " ++ si.component, "", "**Description:**", si.message, "",
      "**SonarCloud Link:** " ++ si.url,
      "**Tags:** " ++ String.intercalate ", " si.tags, "", "", "---",
      "*This issue was automatically created from SonarCloud*"]).data, ?_⟩
    rw [create_body_parts_of_tags si h, joinNl_data_cons, str_data_append,
      List.append_assoc]
    rfl

/-! ## C1: round-trip of the body / key protocol -/

/-- C1: for every Finding whose key is a non-empty string over
`[A-Za-z0-9_:-]`, extracting the key from the body built for that Finding
returns exactly that key — the first occurrence of the marker pattern in the
built body is the marker line itself, which is the first line. -/
theorem C1_extract_build_round_trip (si : SonarIssue)
    (h1 : si.key.data ≠ [])
    (h2 : ∀ c ∈ si.key.data, isSonarKeyChar c = true) :
    SyncEngine.extract_sonar_issue_key (SyncEngine.create_github_issue_body si) =
      some si.key := by
  obtain ⟨t, ht⟩ := body_data_shape si
  unfold SyncEngine.extract_sonar_issue_key
  rw [ht]
  have hnl : isSonarKeyChar '\n' = false := by decide
  have hdrop : (markerPattern ++ (si.key.data ++ '\n' :: t)).drop
      markerPattern.length = si.key.data ++ '\n' :: t := List.drop_left _ _
  have hrun : ((markerPattern ++ (si.key.data ++ '\n' :: t)).drop
      markerPattern.length).takeWhile isSonarKeyChar = si.key.data := by
    rw [hdrop]
    exact takeWhile_all_stop _ _ _ _ h2 hnl
  have hpre : markerPattern.isPrefixOf
      (markerPattern ++ (si.key.data ++ '\n' :: t)) = true :=
    List.isPrefixOf_iff_prefix.mpr (List.prefix_append _ _)
  rw [searchKey_of_marker _ hpre (by rw [hrun]; exact h1), hrun, string_mk_data]

/-- Witness for C1 at a concrete Finding. -/
theorem C1_extract_build_round_trip_witness :
    SyncEngine.extract_sonar_issue_key (SyncEngine.create_github_issue_body
      ⟨"AX-1:b_2", "BUG", "MAJOR", "OPEN", "Test message", "comp", "proj",
        ["security"]⟩) = some "AX-1:b_2" :=
  C1_extract_build_round_trip _ (by decide) (by decide)

/-! ## C6: position of the tags line inside the built body -/

/-- Body layout asserted by the claim (the specification's §6 template): the
tags line and a blank companion sit between the message block and the
canonical-URL line. -/
def claimedTagsBody (si : SonarIssue) : String := joinNl [
  "**SonarCloud Issue:** " ++ si.key,
  "**Type:** " ++ si.type,
  "**Severity:** " ++ si.severity,
  "**Component:** " ++ si.component,
  "",
  "**Description:**",
  si.message,
  "",
  "**Tags:** " ++ String.intercalate ", " si.tags,
  "",
  "**SonarCloud Link:** " ++ si.url,
  "",
  "---",
  "*This issue was automatically created from SonarCloud*"]

/-- C6 counterexample: at a concrete Finding with one tag the built body does
not place the tags line between the message block and the canonical-URL line;
the claimed rendering therefore differs from the code's. -/
theorem C6_counterexample :
    SyncEngine.create_github_issue_body
        ⟨"k1", "BUG", "MAJOR", "OPEN", "msg", "comp", "proj", ["security"]⟩ ≠
      claimedTagsBody
        ⟨"k1", "BUG", "MAJOR", "OPEN", "msg", "comp", "proj", ["security"]⟩ := by
  decide

/-- C6 (amended): for every Finding with a non-empty tags set, `buildBody`
renders, in order: marker-key line, category, severity, component, blank,
description header, message, blank, canonical-URL line, then the tags line
immediately AFTER the canonical-URL line, then two blank lines, then the
separator rule and the attribution sentence (the `insert(-3, …)` pair lands
at indices 9 and 10 of the twelve fixed lines, i.e. after the URL line);
when tags is empty both inserted lines are absent entirely. -/
theorem C6_tags_layout (si : SonarIssue) :
    (si.tags ≠ [] → SyncEngine.create_github_issue_body si = joinNl [
      "**SonarCloud Issue:** " ++ si.key,
      "**Type:** " ++ si.type,
      "**Severity:** " ++ si.severity,
      "**Component:** " ++ si.component,
      "",
      "**Description:**",
      si.message,
      "",
      "**SonarCloud Link:** " ++ si.url,
      "**Tags:** " ++ String.intercalate ", " si.tags,
      "",
      "",
      "---",
      "*This issue was automatically created from SonarCloud*"]) ∧
    (si.tags = [] → SyncEngine.create_github_issue_body si = joinNl [
      "**SonarCloud Issue:** " ++ si.key,
      "**Type:** " ++ si.type,
      "**Severity:** " ++ si.severity,
      "**Component:** " ++ si.component,
      "",
      "**Description:**",
      si.message,
      "",
      "**SonarCloud Link:** " ++ si.url,
      "",
      "---",
      "*This issue was automatically created from SonarCloud*"]) :=
  ⟨create_body_parts_of_tags si, create_body_parts_no_tags si⟩

/-- Witness for C6 (amended) at a concrete Finding with one tag. -/
theorem C6_tags_layout_witness :
    SyncEngine.create_github_issue_body
        ⟨"k1", "BUG", "MAJOR", "OPEN", "msg", "comp", "proj", ["security"]⟩ =
      joinNl ["**SonarCloud Issue:** k1", "**Type:** BUG", "**Severity:** MAJOR",
        "**Component:** comp", "", "**Description:**", "msg", "",
        "**SonarCloud Link:** " ++
          (SonarIssue.url ⟨"k1", "BUG", "MAJOR", "OPEN", "msg", "comp", "proj",
            ["security"]⟩),
        "**Tags:** security", "", "", "---",
        "*This issue was automatically created from SonarCloud*"] :=
  (C6_tags_layout _).1 (by decide)

/-! ## Per-item contributions of the three loops

Each loop body adds to the counters and to the trace an amount that depends
only on the processed item (and the fixed pass parameters), never on the
accumulated state.  The `…Delta` functions name those contributions and the
`…_eq` lemmas prove the loop bodies equal to adding them; folding then gives
a closed form for each whole pass. -/

/-- Contribution of one SonarCloud issue to the `created` counter. -/
def findingCreatedDelta (c : Collab) (dry_run : Bool) (si : SonarIssue) : Nat :=
  match GitHubClient.issue_exists_with_sonar_link c.ghIssues si.url with
  | some _ => 0
  | none => if dry_run then 1 else if c.createFails si then 0 else 1

/-- Contribution of one SonarCloud issue to the `skipped` counter. -/
def findingSkippedDelta (c : Collab) (si : SonarIssue) : Nat :=
  match GitHubClient.issue_exists_with_sonar_link c.ghIssues si.url with
  | some _ => 1
  | none => 0

/-- Requests issued while processing one SonarCloud issue in the creation
phase. -/
def findingTraceDelta (c : Collab) (cfg : Config) (dry_run : Bool)
    (si : SonarIssue) : List SyncAction :=
  SyncAction.fetchLabeled cfg.github_repo "sonarcloud" ::
    (match GitHubClient.issue_exists_with_sonar_link c.ghIssues si.url with
     | some _ => []
     | none =>
       if dry_run then []
       else [SyncAction.createIssue cfg.github_repo si.message
         (SyncEngine.create_github_issue_body si) ("sonarcloud" :: si.tags)])

lemma processFinding_eq (c : Collab) (cfg : Config) (dry_run : Bool)
    (st : SyncState) (si : SonarIssue) :
    processFinding c cfg dry_run st si =
      { st with
        created := st.created + findingCreatedDelta c dry_run si,
        skipped := st.skipped + findingSkippedDelta c si,
        trace := st.trace ++ findingTraceDelta c cfg dry_run si } := by
  obtain ⟨cr, sk, cl, mw, tr⟩ := st
  unfold processFinding findingCreatedDelta findingSkippedDelta findingTraceDelta
  cases h : GitHubClient.issue_exists_with_sonar_link c.ghIssues si.url with
  | some g => simp [h]
  | none =>
    cases dry_run with
    | true => simp [h]
    | false => cases hcf : c.createFails si <;> simp [h, hcf]

lemma foldl_processFinding (c : Collab) (cfg : Config) (dry_run : Bool)
    (l : List SonarIssue) (st : SyncState) :
    l.foldl (processFinding c cfg dry_run) st =
      { st with
        created := st.created + (l.map (findingCreatedDelta c dry_run)).sum,
        skipped := st.skipped + (l.map (findingSkippedDelta c)).sum,
        trace := st.trace ++ l.flatMap (findingTraceDelta c cfg dry_run) } := by
  induction l generalizing st with
  | nil => simp
  | cons a as ih =>
    rw [List.foldl_cons, processFinding_eq, ih]
    obtain ⟨cr, sk, cl, mw, tr⟩ := st
    simp [Nat.add_assoc, List.append_assoc]

/-- The condition under which the closure phase acts on a GitHub issue: it is
open, a key is extractable, and no open SonarCloud issue carries that key. -/
def shouldClose (sonarIssues : List SonarIssue) (g : GitHubIssue) : Bool :=
  g.state = "open" &&
    (match SyncEngine.extract_sonar_issue_key g.body with
     | some k => !(sonarIssues.any (fun si => si.key = k))
     | none => false)

/-- Contribution of one GitHub issue to the `closed` counter. -/
def closeClosedDelta (c : Collab) (dry_run : Bool) (g : GitHubIssue) : Nat :=
  if shouldClose c.sonarIssues g then
    (if dry_run then 1 else if c.closeFails g.number then 0 else 1)
  else 0

/-- Requests issued while processing one GitHub issue in the closure phase. -/
def closeTraceDelta (c : Collab) (cfg : Config) (dry_run : Bool)
    (g : GitHubIssue) : List SyncAction :=
  if shouldClose c.sonarIssues g && !dry_run then
    [SyncAction.closeIssue cfg.github_repo g.number]
  else []

lemma processGithubIssue_eq (c : Collab) (cfg : Config) (dry_run : Bool)
    (st : SyncState) (g : GitHubIssue) :
    processGithubIssue c cfg dry_run st g =
      { st with
        closed := st.closed + closeClosedDelta c dry_run g,
        trace := st.trace ++ closeTraceDelta c cfg dry_run g } := by
  obtain ⟨cr, sk, cl, mw, tr⟩ := st
  unfold processGithubIssue closeClosedDelta closeTraceDelta shouldClose
  by_cases hs : g.state = "open"
  · cases hk : SyncEngine.extract_sonar_issue_key g.body with
    | some k =>
      by_cases ha : c.sonarIssues.any (fun si => si.key = k)
      · simp [hs, hk, ha]
      · cases dry_run with
        | true => simp [hs, hk, ha]
        | false => cases hcf : c.closeFails g.number <;> simp [hs, hk, ha, hcf]
    | none => simp [hs, hk]
  · simp [hs]

lemma foldl_processGithubIssue (c : Collab) (cfg : Config) (dry_run : Bool)
    (l : List GitHubIssue) (st : SyncState) :
    l.foldl (processGithubIssue c cfg dry_run) st =
      { st with
        closed := st.closed + (l.map (closeClosedDelta c dry_run)).sum,
        trace := st.trace ++ l.flatMap (closeTraceDelta c cfg dry_run) } := by
  induction l generalizing st with
  | nil => simp
  | cons a as ih =>
    rw [List.foldl_cons, processGithubIssue_eq, ih]
    obtain ⟨cr, sk, cl, mw, tr⟩ := st
    simp [Nat.add_assoc, List.append_assoc]

/-- The key a reverse-sync step would propagate: present exactly when the
GitHub issue is closed with reason `not_planned` and a key is extractable. -/
def wontFixKey (g : GitHubIssue) : Option String :=
  if g.state = "closed" ∧ g.state_reason = some "not_planned" then
    SyncEngine.extract_sonar_issue_key g.body
  else none

/-- Contribution of one GitHub issue to the `marked_wont_fix` counter. -/
def reverseMarkedDelta (c : Collab) (dry_run : Bool) (g : GitHubIssue) : Nat :=
  match wontFixKey g with
  | some k => if dry_run then 1 else if c.wontFixFails k then 0 else 1
  | none => 0

/-- Requests issued while processing one GitHub issue in reverse sync. -/
def reverseTraceDelta (dry_run : Bool) (g : GitHubIssue) : List SyncAction :=
  match wontFixKey g with
  | some k => if dry_run then [] else [SyncAction.markWontFix k]
  | none => []

lemma processReverse_eq (c : Collab) (dry_run : Bool)
    (st : SyncState) (g : GitHubIssue) :
    processReverse c dry_run st g =
      { st with
        marked_wont_fix := st.marked_wont_fix + reverseMarkedDelta c dry_run g,
        trace := st.trace ++ reverseTraceDelta dry_run g } := by
  obtain ⟨cr, sk, cl, mw, tr⟩ := st
  unfold processReverse reverseMarkedDelta reverseTraceDelta wontFixKey
  by_cases hs : g.state = "closed" ∧ g.state_reason = some "not_planned"
  · cases hk : SyncEngine.extract_sonar_issue_key g.body with
    | some k =>
      cases dry_run with
      | true => simp [hs, hk]
      | false => cases hwf : c.wontFixFails k <;> simp [hs, hk, hwf]
    | none => simp [hs, hk]
  · simp [hs]

lemma foldl_processReverse (c : Collab) (dry_run : Bool)
    (l : List GitHubIssue) (st : SyncState) :
    l.foldl (processReverse c dry_run) st =
      { st with
        marked_wont_fix :=
          st.marked_wont_fix + (l.map (reverseMarkedDelta c dry_run)).sum,
        trace := st.trace ++ l.flatMap (reverseTraceDelta dry_run) } := by
  induction l generalizing st with
  | nil => simp
  | cons a as ih =>
    rw [List.foldl_cons, processReverse_eq, ih]
    obtain ⟨cr, sk, cl, mw, tr⟩ := st
    simp [Nat.add_assoc, List.append_assoc]

/-- Closed form of the whole forward pass. -/
lemma sync_sonar_to_github_eq (c : Collab) (cfg : Config) (dry_run : Bool) :
    SyncEngine.sync_sonar_to_github c cfg dry_run =
      { created := (c.sonarIssues.map (findingCreatedDelta c dry_run)).sum,
        skipped := (c.sonarIssues.map (findingSkippedDelta c)).sum,
        closed := (c.ghIssues.map (closeClosedDelta c dry_run)).sum,
        marked_wont_fix := 0,
        trace := SyncAction.fetchFindings cfg.sonar_project_key cfg.issue_types ::
          (c.sonarIssues.flatMap (findingTraceDelta c cfg dry_run) ++
            SyncAction.fetchLabeled cfg.github_repo "sonarcloud" ::
              c.ghIssues.flatMap (closeTraceDelta c cfg dry_run)) } := by
  simp only [SyncEngine.sync_sonar_to_github]
  rw [foldl_processFinding, foldl_processGithubIssue]
  simp [initState, List.append_assoc]

/-- Closed form of the whole reverse pass. -/
lemma sync_github_to_sonar_eq (c : Collab) (cfg : Config) (dry_run : Bool) :
    SyncEngine.sync_github_to_sonar c cfg dry_run =
      { created := 0, skipped := 0, closed := 0,
        marked_wont_fix := (c.ghIssues.map (reverseMarkedDelta c dry_run)).sum,
        trace := SyncAction.fetchLabeled cfg.github_repo "sonarcloud" ::
          c.ghIssues.flatMap (reverseTraceDelta dry_run) } := by
  simp only [SyncEngine.sync_github_to_sonar]
  rw [foldl_processReverse]
  simp [initState]

/-! ## First-match characterization of `find?` -/

lemma find?_eq_some_first {α : Type} (p : α → Bool) (l : List α) (a : α)
    (h : l.find? p = some a) :
    p a = true ∧ ∃ l₁ l₂, l = l₁ ++ a :: l₂ ∧ ∀ x ∈ l₁, p x = false := by
  induction l with
  | nil => simp at h
  | cons b bs ih =>
    by_cases hb : p b = true
    · rw [List.find?_cons_of_pos _ hb] at h
      obtain rfl : b = a := by injection h
      exact ⟨hb, [], bs, rfl, by simp⟩
    · rw [List.find?_cons_of_neg _ (by simpa using hb)] at h
      obtain ⟨hp, l₁, l₂, rfl, hall⟩ := ih h
      refine ⟨hp, b :: l₁, l₂, rfl, ?_⟩
      intro x hx
      rcases List.mem_cons.mp hx with rfl | hx
      · simpa using hb
      · exact hall x hx

lemma find?_isSome_of_mem {α : Type} (p : α → Bool) (l : List α) (a : α)
    (ha : a ∈ l) (hp : p a = true) : ∃ b, l.find? p = some b := by
  cases h : l.find? p with
  | none => exact absurd hp (List.find?_eq_none.mp h a ha)
  | some b => exact ⟨b, rfl⟩

/-! ## C2: no duplicate creation -/

/-- C2: if a Finding's canonical URL is a substring of the body of at least
one marker-labeled GitHub issue, then the forward-sync step for that Finding
issues no create call and increments `skipped` by exactly one (its only trace
contribution is the duplicate-check fetch); and whatever issue the duplicate
check returns is the first matching one in the collaborator-returned list
order. -/
theorem C2_no_duplicate_create (c : Collab) (cfg : Config) (dry_run : Bool)
    (st : SyncState) (si : SonarIssue) (g : GitHubIssue)
    (hg : g ∈ c.ghIssues) (hmatch : strContains g.body si.url = true) :
    processFinding c cfg dry_run st si =
      { st with
        skipped := st.skipped + 1
        trace := st.trace ++
          [SyncAction.fetchLabeled cfg.github_repo "sonarcloud"] } ∧
    ∀ g0, GitHubClient.issue_exists_with_sonar_link c.ghIssues si.url = some g0 →
      strContains g0.body si.url = true ∧
      ∃ l₁ l₂, c.ghIssues = l₁ ++ g0 :: l₂ ∧
        ∀ g1 ∈ l₁, strContains g1.body si.url = false := by
  obtain ⟨g0, hg0⟩ :=
    find?_isSome_of_mem (fun issue => strContains issue.body si.url)
      c.ghIssues g hg hmatch
  have hex : GitHubClient.issue_exists_with_sonar_link c.ghIssues si.url =
      some g0 := hg0
  constructor
  · rw [processFinding_eq]
    obtain ⟨cr, sk, cl, mw, tr⟩ := st
    unfold findingCreatedDelta findingSkippedDelta findingTraceDelta
    simp [hex]
  · intro g1 hg1
    unfold GitHubClient.issue_exists_with_sonar_link at hg1
    have := find?_eq_some_first (fun issue => strContains issue.body si.url)
      c.ghIssues g1 hg1
    simpa using this

/-- Shared concrete configuration for witnesses. -/
def exCfg : Config := ⟨"proj", "owner/repo", ["BUG"]⟩

/-- Concrete Finding for the C2 witness. -/
def siW2 : SonarIssue := ⟨"K", "BUG", "MAJOR", "OPEN", "M", "C", "P", []⟩

/-- Concrete GitHub issue whose body contains `siW2`'s canonical URL. -/
def ghW2 : GitHubIssue := ⟨1, "t", SonarIssue.url siW2, "open", ["sonarcloud"], none⟩

/-- Concrete collaborators for the C2 witness. -/
def cW2 : Collab :=
  ⟨[siW2], [ghW2], true, true, fun _ => false, fun _ => false, fun _ => false⟩

/-- Witness for C2 at a concrete scenario. -/
theorem C2_no_duplicate_create_witness :
    processFinding cW2 exCfg false initState siW2 =
      { initState with
        skipped := initState.skipped + 1
        trace := initState.trace ++
          [SyncAction.fetchLabeled exCfg.github_repo "sonarcloud"] } :=
  (C2_no_duplicate_create cW2 exCfg false initState siW2 ghW2 (by decide)
    (by decide)).1

/-! ## C3: closure is invoked exactly for stale open mirror items -/

lemma count_close_findingTrace (c : Collab) (cfg : Config) (dry_run : Bool)
    (l : List SonarIssue) (r : String) (n : Nat) :
    (l.flatMap (findingTraceDelta c cfg dry_run)).count
      (SyncAction.closeIssue r n) = 0 := by
  induction l with
  | nil => simp
  | cons a as ih =>
    rw [List.flatMap_cons, List.count_append, ih]
    unfold findingTraceDelta
    cases h : GitHubClient.issue_exists_with_sonar_link c.ghIssues a.url with
    | some g => simp [List.count_cons]
    | none => cases dry_run <;> simp [List.count_cons]

lemma count_close_closeTrace (c : Collab) (cfg : Config)
    (l : List GitHubIssue) (n : Nat) :
    (l.flatMap (closeTraceDelta c cfg false)).count
        (SyncAction.closeIssue cfg.github_repo n) =
      l.countP (fun g => shouldClose c.sonarIssues g && g.number == n) := by
  induction l with
  | nil => simp
  | cons a as ih =>
    rw [List.flatMap_cons, List.count_append, ih, List.countP_cons]
    unfold closeTraceDelta
    by_cases h : shouldClose c.sonarIssues a
    · by_cases hn : a.number = n
      · simp [h, hn, List.count_cons, Nat.add_comm]
      · simp [h, hn, List.count_cons]
    · simp [h]

lemma countP_number_unique (l : List GitHubIssue) (g : GitHubIssue)
    (p : GitHubIssue → Bool) (hg : g ∈ l)
    (hnd : (l.map GitHubIssue.number).Nodup) :
    l.countP (fun x => p x && x.number == g.number) =
      if p g then 1 else 0 := by
  induction l with
  | nil => cases hg
  | cons a as ih =>
    rw [List.map_cons, List.nodup_cons] at hnd
    rw [List.countP_cons]
    rcases List.mem_cons.mp hg with rfl | hmem
    · have hzero : as.countP (fun x => p x && x.number == g.number) = 0 := by
        rw [List.countP_eq_zero]
        intro x hx
        have hne : x.number ≠ g.number := by
          intro he
          exact hnd.1 (he ▸ List.mem_map_of_mem GitHubIssue.number hx)
        simp [hne]
      rw [hzero]
      by_cases hp : p g <;> simp [hp]
    · have hne : a.number ≠ g.number := by
        intro he
        exact hnd.1 (he ▸ List.mem_map_of_mem GitHubIssue.number hmem)
      rw [ih hmem hnd.2]
      simp [hne]

/-- C3: in one execution-mode forward pass, a close request for a
marker-labeled GitHub issue appears in the trace exactly once iff the issue
is open, its body yields a key, and no currently-open SonarCloud issue
carries that key (`shouldClose`); and an open issue whose body yields no key
leaves the loop state entirely unchanged (skipped, no counter change). -/
theorem C3_closure_exactly_once (c : Collab) (cfg : Config) (g : GitHubIssue)
    (hg : g ∈ c.ghIssues)
    (hnd : (c.ghIssues.map GitHubIssue.number).Nodup) :
    ((SyncEngine.sync_sonar_to_github c cfg false).trace.count
        (SyncAction.closeIssue cfg.github_repo g.number) =
      if shouldClose c.sonarIssues g then 1 else 0) ∧
    (g.state = "open" → SyncEngine.extract_sonar_issue_key g.body = none →
      ∀ st, processGithubIssue c cfg false st g = st) := by
  constructor
  · have h1 := count_close_findingTrace c cfg false c.sonarIssues
      cfg.github_repo g.number
    have h2 := count_close_closeTrace c cfg c.ghIssues g.number
    have h3 := countP_number_unique c.ghIssues g (shouldClose c.sonarIssues)
      hg hnd
    simp [sync_sonar_to_github_eq, List.count_cons, List.count_append, h1, h2, h3]
  · intro h1 h2 st
    unfold processGithubIssue
    simp [h1, h2]

/-- Concrete stale open GitHub issue for the C3 witness: its extracted key
`GONE` matches no open SonarCloud issue. -/
def ghW3 : GitHubIssue :=
  ⟨2, "t", "**SonarCloud Issue:** GONE\nSome content", "open", ["sonarcloud"], none⟩

/-- Concrete collaborators for the C3 witness. -/
def cW3 : Collab :=
  ⟨[siW2], [ghW3], true, true, fun _ => false, fun _ => false, fun _ => false⟩

/-- Witness for C3 at a concrete scenario. -/
theorem C3_closure_exactly_once_witness :
    (SyncEngine.sync_sonar_to_github cW3 exCfg false).trace.count
        (SyncAction.closeIssue exCfg.github_repo ghW3.number) =
      if shouldClose cW3.sonarIssues ghW3 then 1 else 0 :=
  (C3_closure_exactly_once cW3 exCfg ghW3 (by decide) (by decide)).1

/-! ## C4: reverse propagation selectivity -/

lemma wontFixKey_eq_some (g : GitHubIssue) (k : String) :
    wontFixKey g = some k ↔
      (g.state = "closed" ∧ g.state_reason = some "not_planned" ∧
        SyncEngine.extract_sonar_issue_key g.body = some k) := by
  unfold wontFixKey
  by_cases h : g.state = "closed" ∧ g.state_reason = some "not_planned"
  · simp [h]
  · simp [h]
    intro h1 h2
    exact absurd ⟨h1, h2⟩ h

/-- C4: in execution mode, the reverse pass's trace is exactly the labeled
fetch followed by one mark-won't-fix request per GitHub issue that is closed
with reason `not_planned` and has an extractable key, in list order; hence a
mark-won't-fix request for key `k` is issued iff some labeled issue is closed
as `not_planned` with extractable key `k`, and items closed with any other
reason, still open, or without an extractable key never contribute. -/
theorem C4_reverse_selectivity (c : Collab) (cfg : Config) :
    ((SyncEngine.sync_github_to_sonar c cfg false).trace =
      SyncAction.fetchLabeled cfg.github_repo "sonarcloud" ::
        c.ghIssues.flatMap (fun g =>
          match wontFixKey g with
          | some k => [SyncAction.markWontFix k]
          | none => [])) ∧
    ∀ k, SyncAction.markWontFix k ∈
        (SyncEngine.sync_github_to_sonar c cfg false).trace ↔
      ∃ g ∈ c.ghIssues, g.state = "closed" ∧
        g.state_reason = some "not_planned" ∧
        SyncEngine.extract_sonar_issue_key g.body = some k := by
  have htr : (SyncEngine.sync_github_to_sonar c cfg false).trace =
      SyncAction.fetchLabeled cfg.github_repo "sonarcloud" ::
        c.ghIssues.flatMap (fun g =>
          match wontFixKey g with
          | some k => [SyncAction.markWontFix k]
          | none => []) := by
    rw [sync_github_to_sonar_eq]
    show SyncAction.fetchLabeled cfg.github_repo "sonarcloud" ::
        c.ghIssues.flatMap (reverseTraceDelta false) = _
    rfl
  refine ⟨htr, ?_⟩
  intro k
  rw [htr]
  simp only [List.mem_cons, List.mem_flatMap]
  constructor
  · rintro (h | ⟨g, hgmem, hgin⟩)
    · exact absurd h (by simp)
    · cases hwf : wontFixKey g with
      | some k0 =>
        rw [hwf] at hgin
        simp at hgin
        subst hgin
        obtain ⟨h1, h2, h3⟩ := (wontFixKey_eq_some g k).mp hwf
        exact ⟨g, hgmem, h1, h2, h3⟩
      | none => rw [hwf] at hgin; simp at hgin
  · rintro ⟨g, hgmem, h1, h2, h3⟩
    refine Or.inr ⟨g, hgmem, ?_⟩
    rw [(wontFixKey_eq_some g k).mpr ⟨h1, h2, h3⟩]
    simp

/-! ## C5: preview-mode purity -/

/-- A mutating request: create, close or mark-won't-fix. -/
def isMutation : SyncAction → Bool
  | SyncAction.createIssue _ _ _ _ => true
  | SyncAction.closeIssue _ _ => true
  | SyncAction.markWontFix _ => true
  | _ => false

/-- The same collaborators with every individual mutating call succeeding. -/
def noFailures (c : Collab) : Collab :=
  { c with
    createFails := fun _ => false
    closeFails := fun _ => false
    wontFixFails := fun _ => false }

lemma findingCreatedDelta_noFail (c : Collab) (si : SonarIssue) :
    findingCreatedDelta (noFailures c) true si =
      findingCreatedDelta (noFailures c) false si := by
  unfold findingCreatedDelta
  cases h : GitHubClient.issue_exists_with_sonar_link (noFailures c).ghIssues
    si.url <;> simp [noFailures]

lemma closeClosedDelta_noFail (c : Collab) (g : GitHubIssue) :
    closeClosedDelta (noFailures c) true g =
      closeClosedDelta (noFailures c) false g := by
  unfold closeClosedDelta
  by_cases h : shouldClose (noFailures c).sonarIssues g <;> simp [h, noFailures]

lemma reverseMarkedDelta_noFail (c : Collab) (g : GitHubIssue) :
    reverseMarkedDelta (noFailures c) true g =
      reverseMarkedDelta (noFailures c) false g := by
  unfold reverseMarkedDelta
  cases h : wontFixKey g <;> simp [noFailures]

lemma findingTraceDelta_dry (c : Collab) (cfg : Config) (si : SonarIssue) :
    findingTraceDelta c cfg true si =
      [SyncAction.fetchLabeled cfg.github_repo "sonarcloud"] := by
  unfold findingTraceDelta
  cases h : GitHubClient.issue_exists_with_sonar_link c.ghIssues si.url <;> simp

lemma closeTraceDelta_dry (c : Collab) (cfg : Config) (g : GitHubIssue) :
    closeTraceDelta c cfg true g = [] := by
  unfold closeTraceDelta
  simp

lemma reverseTraceDelta_dry (g : GitHubIssue) : reverseTraceDelta true g = [] := by
  unfold reverseTraceDelta
  cases h : wontFixKey g <;> simp

lemma dry_forward_no_mutation (c : Collab) (cfg : Config) :
    (SyncEngine.sync_sonar_to_github c cfg true).trace.filter isMutation = [] := by
  rw [sync_sonar_to_github_eq, List.filter_eq_nil_iff]
  intro a ha
  simp only [List.mem_cons, List.mem_append, List.mem_flatMap,
    findingTraceDelta_dry, closeTraceDelta_dry] at ha
  rcases ha with rfl | ⟨⟨si, _, hmem⟩ | rfl | ⟨g, _, hmem⟩⟩
  · simp [isMutation]
  · simp at hmem
    subst hmem
    simp [isMutation]
  · simp [isMutation]
  · simp at hmem

lemma dry_reverse_no_mutation (c : Collab) (cfg : Config) :
    (SyncEngine.sync_github_to_sonar c cfg true).trace.filter isMutation = [] := by
  rw [sync_github_to_sonar_eq, List.filter_eq_nil_iff]
  intro a ha
  simp only [List.mem_cons, List.mem_flatMap, reverseTraceDelta_dry] at ha
  rcases ha with rfl | ⟨g, _, hmem⟩
  · simp [isMutation]
  · simp at hmem

lemma dry_forward_counters (c : Collab) (cfg : Config) :
    forwardResultDict (SyncEngine.sync_sonar_to_github (noFailures c) cfg true) =
      forwardResultDict (SyncEngine.sync_sonar_to_github (noFailures c) cfg false) := by
  rw [sync_sonar_to_github_eq, sync_sonar_to_github_eq]
  unfold forwardResultDict
  rw [show findingCreatedDelta (noFailures c) true =
      findingCreatedDelta (noFailures c) false from
    funext (findingCreatedDelta_noFail c)]
  rw [show closeClosedDelta (noFailures c) true =
      closeClosedDelta (noFailures c) false from
    funext (closeClosedDelta_noFail c)]

lemma dry_reverse_counters (c : Collab) (cfg : Config) :
    reverseResultDict (SyncEngine.sync_github_to_sonar (noFailures c) cfg true) =
      reverseResultDict (SyncEngine.sync_github_to_sonar (noFailures c) cfg false) := by
  rw [sync_github_to_sonar_eq, sync_github_to_sonar_eq]
  unfold reverseResultDict
  rw [show reverseMarkedDelta (noFailures c) true =
      reverseMarkedDelta (noFailures c) false from
    funext (reverseMarkedDelta_noFail c)]

/-- C5: for every scenario (any collaborator-returned lists, with the
individual mutating calls succeeding), a preview-mode pass issues zero
create / close / mark-won't-fix calls, and returns exactly the same result
dict `{created, skipped, closed, marked_wont_fix}` as the execution-mode
pass over the same data. -/
theorem C5_preview_purity (c : Collab) (cfg : Config) :
    ((SyncEngine.full_sync (noFailures c) cfg true).1.filter isMutation = []) ∧
    (SyncEngine.full_sync (noFailures c) cfg true).2 =
      (SyncEngine.full_sync (noFailures c) cfg false).2 := by
  unfold SyncEngine.full_sync SyncEngine.validate_credentials
  have hso : (noFailures c).sonarOk = c.sonarOk := rfl
  have hgo : (noFailures c).githubOk = c.githubOk := rfl
  cases hs : c.sonarOk with
  | false => simp [hso, hs]
  | true =>
    cases hg : c.githubOk with
    | false => simp [hso, hgo, hs, hg]
    | true =>
      simp only [hso, hgo, hs, hg, Bool.not_true, Bool.false_eq_true, if_false]
      refine ⟨?_, ?_⟩
      · rw [List.filter_append, dry_forward_no_mutation, dry_reverse_no_mutation]
        rfl
      · rw [dry_forward_counters, dry_reverse_counters]

/-! ## C7: an individual create failure is swallowed -/

/-- C7: in execution mode, when the create call for one Finding (with no
duplicate) fails, the step for it issues the fetch and the create request but
changes no counter; and the whole forward pass's `created`, `skipped` and
`closed` counters equal those of a pass in which the failed Finding
contributed nothing at all — every other Finding's contribution, and every
closure decision, is unchanged. -/
theorem C7_create_failure_swallowed (c : Collab) (cfg : Config)
    (pre post : List SonarIssue) (si : SonarIssue)
    (hlist : c.sonarIssues = pre ++ si :: post)
    (hnodup : GitHubClient.issue_exists_with_sonar_link c.ghIssues si.url = none)
    (hfail : c.createFails si = true) :
    (∀ st, processFinding c cfg false st si =
      { st with trace := st.trace ++
        [SyncAction.fetchLabeled cfg.github_repo "sonarcloud",
         SyncAction.createIssue cfg.github_repo si.message
           (SyncEngine.create_github_issue_body si) ("sonarcloud" :: si.tags)] }) ∧
    (SyncEngine.sync_sonar_to_github c cfg false).created =
      ((pre ++ post).map (findingCreatedDelta c false)).sum ∧
    (SyncEngine.sync_sonar_to_github c cfg false).skipped =
      ((pre ++ post).map (findingSkippedDelta c)).sum ∧
    (SyncEngine.sync_sonar_to_github c cfg false).closed =
      (c.ghIssues.map (closeClosedDelta c false)).sum := by
  have hcd : findingCreatedDelta c false si = 0 := by
    unfold findingCreatedDelta
    simp [hnodup, hfail]
  have hsd : findingSkippedDelta c si = 0 := by
    unfold findingSkippedDelta
    simp [hnodup]
  refine ⟨?_, ?_, ?_, ?_⟩
  · intro st
    rw [processFinding_eq]
    obtain ⟨cr, sk, cl, mw, tr⟩ := st
    unfold findingTraceDelta
    simp [hcd, hsd, hnodup, hfail]
  · rw [sync_sonar_to_github_eq]
    show (c.sonarIssues.map (findingCreatedDelta c false)).sum = _
    rw [hlist]
    simp [hcd]
  · rw [sync_sonar_to_github_eq]
    show (c.sonarIssues.map (findingSkippedDelta c)).sum = _
    rw [hlist]
    simp [hsd]
  · rw [sync_sonar_to_github_eq]

/-- Concrete Finding whose create call fails, for the C7 witness. -/
def siW7 : SonarIssue := ⟨"F1", "BUG", "MAJOR", "OPEN", "Mf", "C", "P", []⟩

/-- Concrete collaborators for the C7 witness: empty tracker, the create call
for `siW7` raises. -/
def cW7 : Collab :=
  ⟨[siW2, siW7], [], true, true, fun si => si.key = "F1", fun _ => false,
    fun _ => false⟩

/-- Witness for C7 at a concrete scenario. -/
theorem C7_create_failure_swallowed_witness :
    (SyncEngine.sync_sonar_to_github cW7 exCfg false).created =
      (([siW2] ++ ([] : List SonarIssue)).map
        (findingCreatedDelta cW7 false)).sum ∧
    (SyncEngine.sync_sonar_to_github cW7 exCfg false).skipped =
      (([siW2] ++ ([] : List SonarIssue)).map (findingSkippedDelta cW7)).sum :=
  ⟨(C7_create_failure_swallowed cW7 exCfg [siW2] [] siW7 rfl (by decide)
      (by decide)).2.1,
   (C7_create_failure_swallowed cW7 exCfg [siW2] [] siW7 rfl (by decide)
      (by decide)).2.2.1⟩

/-! ## C8: the full pass validates first, then merges disjoint result dicts -/

/-- C8: the full pass checks the analysis-service connection first, then the
tracker's; if either check fails it raises before issuing any fetch or
mutating request (empty trace, no result); if both succeed it runs forward
sync then reverse sync and returns the concatenation of their two result
dicts, whose key sets `{created, skipped, closed}` and `{marked_wont_fix}`
are disjoint. -/
theorem C8_full_pass (c : Collab) (cfg : Config) (dry_run : Bool) :
    (c.sonarOk = false →
      SyncEngine.full_sync c cfg dry_run =
        ([], Except.error "Invalid SonarCloud credentials or connection failed")) ∧
    (c.sonarOk = true → c.githubOk = false →
      SyncEngine.full_sync c cfg dry_run =
        ([], Except.error "Invalid GitHub credentials or repository access failed")) ∧
    (c.sonarOk = true → c.githubOk = true →
      SyncEngine.full_sync c cfg dry_run =
        ((SyncEngine.sync_sonar_to_github c cfg dry_run).trace ++
            (SyncEngine.sync_github_to_sonar c cfg dry_run).trace,
          Except.ok
            (forwardResultDict (SyncEngine.sync_sonar_to_github c cfg dry_run) ++
              reverseResultDict (SyncEngine.sync_github_to_sonar c cfg dry_run)))) ∧
    ((forwardResultDict (SyncEngine.sync_sonar_to_github c cfg dry_run)).map
        Prod.fst = ["created", "skipped", "closed"]) ∧
    ((reverseResultDict (SyncEngine.sync_github_to_sonar c cfg dry_run)).map
        Prod.fst = ["marked_wont_fix"]) ∧
    (∀ k ∈ (forwardResultDict
        (SyncEngine.sync_sonar_to_github c cfg dry_run)).map Prod.fst,
      k ∉ (reverseResultDict
        (SyncEngine.sync_github_to_sonar c cfg dry_run)).map Prod.fst) := by
  refine ⟨?_, ?_, ?_, rfl, rfl, ?_⟩
  · intro hs
    unfold SyncEngine.full_sync SyncEngine.validate_credentials
    simp [hs]
  · intro hs hg
    unfold SyncEngine.full_sync SyncEngine.validate_credentials
    simp [hs, hg]
  · intro hs hg
    unfold SyncEngine.full_sync SyncEngine.validate_credentials
    simp [hs, hg]
  · intro k hk
    simp only [forwardResultDict, List.map_cons, List.map_nil, List.mem_cons,
      List.not_mem_nil, or_false] at hk
    rcases hk with rfl | rfl | rfl <;>
      simp [reverseResultDict]

/-- Collaborators with the SonarCloud connection check failing. -/
def cW8s : Collab :=
  ⟨[], [], false, true, fun _ => false, fun _ => false, fun _ => false⟩

/-- Collaborators with the GitHub connection check failing. -/
def cW8g : Collab :=
  ⟨[], [], true, false, fun _ => false, fun _ => false, fun _ => false⟩

/-- Collaborators with both connection checks succeeding. -/
def cW8ok : Collab :=
  ⟨[], [], true, true, fun _ => false, fun _ => false, fun _ => false⟩

/-- Witness for C8 at three concrete collaborator configurations. -/
theorem C8_full_pass_witness :
    SyncEngine.full_sync cW8s exCfg false =
      ([], Except.error "Invalid SonarCloud credentials or connection failed") ∧
    SyncEngine.full_sync cW8g exCfg false =
      ([], Except.error "Invalid GitHub credentials or repository access failed") ∧
    SyncEngine.full_sync cW8ok exCfg false =
      ((SyncEngine.sync_sonar_to_github cW8ok exCfg false).trace ++
          (SyncEngine.sync_github_to_sonar cW8ok exCfg false).trace,
        Except.ok
          (forwardResultDict (SyncEngine.sync_sonar_to_github cW8ok exCfg false) ++
            reverseResultDict (SyncEngine.sync_github_to_sonar cW8ok exCfg false))) :=
  ⟨(C8_full_pass cW8s exCfg false).1 rfl,
   (C8_full_pass cW8g exCfg false).2.1 rfl rfl,
   (C8_full_pass cW8ok exCfg false).2.2.1 rfl rfl⟩

/-! ## C9: idempotence of forward creation -/

lemma infix_of_mem_joinNl (s : String) (l : List String) (h : s ∈ l) :
    s.data <:+: (joinNl l).data := by
  induction l with
  | nil => cases h
  | cons a rest ih =>
    cases rest with
    | nil =>
      obtain rfl : s = a := by simpa using h
      exact List.infix_refl _
    | cons b t =>
      rw [joinNl_data_cons]
      rcases List.mem_cons.mp h with rfl | hmem
      · exact ⟨[], '\n' :: (joinNl (b :: t)).data, by simp⟩
      · obtain ⟨u, v, huv⟩ := ih hmem
        exact ⟨a.data ++ '\n' :: u, v, by rw [← huv]; simp⟩

/-- The built body always contains the Finding's canonical URL as a
substring (it is the suffix of the canonical-URL line). -/
lemma url_in_built_body (si : SonarIssue) :
    strContains (SyncEngine.create_github_issue_body si) si.url = true := by
  unfold strContains
  rw [decide_eq_true_eq]
  have hsuff : si.url.data <:+: ("**SonarCloud Link:** " ++ si.url).data :=
    ⟨"**SonarCloud Link:** ".data, [], by simp [str_data_append]⟩
  by_cases h : si.tags = []
  · rw [create_body_parts_no_tags si h]
    exact hsuff.trans (infix_of_mem_joinNl _ _ (by simp))
  · rw [create_body_parts_of_tags si h]
    exact hsuff.trans (infix_of_mem_joinNl _ _ (by simp))

lemma sum_map_eq_length {α : Type} (l : List α) (f : α → Nat)
    (h : ∀ a ∈ l, f a = 1) : (l.map f).sum = l.length := by
  induction l with
  | nil => rfl
  | cons a as ih =>
    rw [List.map_cons, List.sum_cons, h a (by simp),
      ih (fun x hx => h x (by simp [hx])), List.length_cons, Nat.add_comm]

lemma sum_map_eq_zero {α : Type} (l : List α) (f : α → Nat)
    (h : ∀ a ∈ l, f a = 0) : (l.map f).sum = 0 := by
  induction l with
  | nil => rfl
  | cons a as ih =>
    rw [List.map_cons, List.sum_cons, h a (by simp),
      ih (fun x hx => h x (by simp [hx]))]

/-- C9: if after a first execution-mode forward run every Finding that had no
linked mirror item got one whose stored body equals the built body (and the
previously linked items are still there), then a second forward run over the
same Findings returns `created = 0`, counts every Finding as skipped, and
issues no create call at all. -/
theorem C9_forward_idempotent (c c2 : Collab) (cfg : Config)
    (hsonar : c2.sonarIssues = c.sonarIssues)
    (hsub : ∀ g ∈ c.ghIssues, g ∈ c2.ghIssues)
    (hnew : ∀ si ∈ c.sonarIssues,
      GitHubClient.issue_exists_with_sonar_link c.ghIssues si.url = none →
      ∃ g ∈ c2.ghIssues, g.body = SyncEngine.create_github_issue_body si) :
    (SyncEngine.sync_sonar_to_github c2 cfg false).created = 0 ∧
    (SyncEngine.sync_sonar_to_github c2 cfg false).skipped =
      c.sonarIssues.length ∧
    ∀ r t b lb, SyncAction.createIssue r t b lb ∉
      (SyncEngine.sync_sonar_to_github c2 cfg false).trace := by
  have hmatched : ∀ si ∈ c.sonarIssues, ∃ g0,
      c2.ghIssues.find? (fun issue => strContains issue.body si.url) =
        some g0 := by
    intro si hsi
    cases hex : c.ghIssues.find? (fun issue => strContains issue.body si.url) with
    | some g0 =>
      have hp := List.find?_some hex
      exact find?_isSome_of_mem (fun issue => strContains issue.body si.url)
        c2.ghIssues g0 (hsub g0 (List.mem_of_find?_eq_some hex)) hp
    | none =>
      obtain ⟨g, hgmem, hbody⟩ := hnew si hsi hex
      refine find?_isSome_of_mem _ _ g hgmem ?_
      rw [hbody]
      exact url_in_built_body si
  refine ⟨?_, ?_, ?_⟩
  · rw [sync_sonar_to_github_eq]
    show (c2.sonarIssues.map (findingCreatedDelta c2 false)).sum = 0
    rw [hsonar]
    refine sum_map_eq_zero _ _ ?_
    intro si hsi
    obtain ⟨g0, hg0⟩ := hmatched si hsi
    unfold findingCreatedDelta GitHubClient.issue_exists_with_sonar_link
    rw [hg0]
  · rw [sync_sonar_to_github_eq]
    show (c2.sonarIssues.map (findingSkippedDelta c2)).sum = _
    rw [hsonar]
    refine sum_map_eq_length _ _ ?_
    intro si hsi
    obtain ⟨g0, hg0⟩ := hmatched si hsi
    unfold findingSkippedDelta GitHubClient.issue_exists_with_sonar_link
    rw [hg0]
  · intro r t b lb h
    rw [sync_sonar_to_github_eq] at h
    simp only [List.mem_cons, List.mem_append, List.mem_flatMap] at h
    rcases h with h | ⟨⟨si, hsi, hmem⟩ | h | ⟨g, hgmem, hmem⟩⟩
    · exact absurd h (by simp)
    · rw [hsonar] at hsi
      obtain ⟨g0, hg0⟩ := hmatched si hsi
      unfold findingTraceDelta GitHubClient.issue_exists_with_sonar_link at hmem
      rw [hg0] at hmem
      simp at hmem
    · exact absurd h (by simp)
    · unfold closeTraceDelta at hmem
      by_cases hc : (shouldClose c2.sonarIssues g && !false) = true
      · rw [if_pos hc] at hmem
        simp at hmem
      · rw [if_neg hc] at hmem
        simp at hmem

/-- First-run collaborators for the C9 witness: one Finding, empty tracker. -/
def cW9 : Collab :=
  ⟨[siW2], [], true, true, fun _ => false, fun _ => false, fun _ => false⟩

/-- Second-run collaborators for the C9 witness: the tracker now holds the
mirror item the first run created, with the built body stored verbatim. -/
def c2W9 : Collab :=
  ⟨[siW2],
   [⟨1, "M", SyncEngine.create_github_issue_body siW2, "open", ["sonarcloud"],
     none⟩],
   true, true, fun _ => false, fun _ => false, fun _ => false⟩

/-- Witness for C9 at a concrete scenario. -/
theorem C9_forward_idempotent_witness :
    (SyncEngine.sync_sonar_to_github c2W9 exCfg false).created = 0 ∧
    (SyncEngine.sync_sonar_to_github c2W9 exCfg false).skipped =
      cW9.sonarIssues.length := by
  have h := C9_forward_idempotent cW9 c2W9 exCfg rfl (by simp [cW9])
    (by
      intro si hsi hnone
      have hsi2 : si = siW2 := by simpa [cW9] using hsi
      subst hsi2
      exact ⟨⟨1, "M", SyncEngine.create_github_issue_body siW2, "open",
        ["sonarcloud"], none⟩, by simp [c2W9], rfl⟩)
  exact ⟨h.1, h.2.1⟩

/-! ## C10: closing sends only the state field -/

/-- The PATCH payload sent by `GitHubClient.close_issue` (`github_client.py`
lines 112–125): `data = {"state": "closed"}` — no `state_reason` field. -/
def close_issue_data : List (String × String) := [("state", "closed")]

/-- The tracker-side update semantics the claim assumes: a PATCH changes
exactly the fields its payload names; in particular the closure reason
changes only when the payload explicitly sets `state_reason`. -/
def applyPatch (g : GitHubIssue) (payload : List (String × String)) :
    GitHubIssue :=
  { g with
    state := (payload.lookup "state").getD g.state
    state_reason :=
      match payload.lookup "state_reason" with
      | some r => some r
      | none => g.state_reason }

/-- C10: the engine's close request carries only `state = closed` and no
closure reason, so an issue whose reason was not already `not_planned` still
lacks that reason after being closed by forward sync, yields no won't-fix
key, and is left untouched by every reverse-sync step in a later pass. -/
theorem C10_close_sets_no_reason (g : GitHubIssue)
    (h : g.state_reason ≠ some "not_planned") :
    close_issue_data.lookup "state_reason" = none ∧
    applyPatch g close_issue_data = { g with state := "closed" } ∧
    wontFixKey (applyPatch g close_issue_data) = none ∧
    ∀ (c : Collab) (dry_run : Bool) (st : SyncState),
      processReverse c dry_run st (applyPatch g close_issue_data) = st := by
  have happ : applyPatch g close_issue_data = { g with state := "closed" } := rfl
  have hwf : wontFixKey (applyPatch g close_issue_data) = none := by
    rw [happ]
    unfold wontFixKey
    rw [if_neg]
    intro hcon
    exact h hcon.2
  refine ⟨rfl, happ, hwf, ?_⟩
  intro c dry_run st
  rw [processReverse_eq]
  obtain ⟨cr, sk, cl, mw, tr⟩ := st
  unfold reverseMarkedDelta reverseTraceDelta
  rw [hwf]
  simp

/-- Witness for C10 at a concrete open GitHub issue. -/
theorem C10_close_sets_no_reason_witness :
    wontFixKey (applyPatch ghW3 close_issue_data) = none :=
  (C10_close_sets_no_reason ghW3 (by decide)).2.2.1
